import Mathlib

/-!
Verification development for the QR-driven attendance capture flow of the
Attending-System frontend. The definitions below are shallow embeddings of
the JavaScript source: the camera scanner component
(frontend/src/components/scanner/QRScanner.jsx), the result-based scanner
(frontend/src/components/QRScanner.jsx), the useQRScanner hook, and the API
service layer (axios instance, interceptors, qrCodeService.markAttendance).
JavaScript optional string fields are modelled as Option String, where
absence is none and the empty string is some of the empty string; JS
truthiness on such a value holds exactly when the value is present and
non-empty. External library calls with data-dependent results, namely
JSON.parse, URL query parsing and the jsQR decode itself, are supplied to
the embedded control flow as explicit inputs, since the source code only
branches on their success or failure and on the extracted fields.
-/

/-- JS truthiness of an optional string: present and non-empty. -/
def truthy : Option String → Bool
  | some s => !(s == "")
  | none => false

/-- JS expression a or-else d for an optional string a and string default d. -/
def jsOr (o : Option String) (dflt : String) : String :=
  if truthy o then o.getD dflt else dflt

/-- JS expression a or-else b for two optional strings. -/
def jsOrO (o fallback : Option String) : Option String :=
  if truthy o then o else fallback

/-- A decoded QR payload object, with the fields the sources read from it. -/
structure QrPayload where
  indexNumber : Option String
  name : Option String
  parent_telephone : Option String
  rawData : Option String
deriving DecidableEq

/-- Result of a successful JSON.parse call as seen by the camera scanner:
either the JS null value or an object carrying the payload fields. -/
inductive JsValue where
  | nullV
  | obj (p : QrPayload)
deriving DecidableEq

/-- Outcome of one call to processImageData in scanner/QRScanner.jsx:
no symbol in the frame (returns null silently), a rejection (error state
set, toast shown, returns null), or a validated payload (returned). -/
inductive ProcessOutcome where
  | noCode
  | rejected (msg : String)
  | found (p : QrPayload)
deriving DecidableEq

/-- Embedding of processImageData from scanner/QRScanner.jsx. The argument
code is the jsQR result (decoded text or none), and parsed is the result of
JSON.parse on that text (none when JSON.parse throws). A frame without a
symbol returns null with no error path taken; a text that fails JSON.parse
is rejected with the invalid-format message; a parsed value that is null or
lacks a truthy indexNumber is rejected with the missing-information
message; otherwise the payload is returned. -/
def processImageData (code : Option String) (parsed : Option JsValue) : ProcessOutcome :=
  match code with
  | none => ProcessOutcome.noCode
  | some _ =>
    match parsed with
    | none => ProcessOutcome.rejected "Invalid QR code format. Please scan a valid QR code."
    | some JsValue.nullV => ProcessOutcome.rejected "Invalid QR code data. Missing required information."
    | some (JsValue.obj p) =>
      if truthy p.indexNumber then ProcessOutcome.found p
      else ProcessOutcome.rejected "Invalid QR code data. Missing required information."

/-- JS-whitespace test on a character, for the regex class backslash-s
applied by markAttendance (space, tab, newline, carriage return, vertical
tab, form feed). -/
def isJsWhitespaceChar (c : Char) : Bool :=
  c == ' ' || c == '\t' || c == '\n' || c == '\r' || c == Char.ofNat 11 || c == Char.ofNat 12

/-- Global replacement of the whitespace class by the empty string, as in
the phone-number sanitization of qrCodeService.markAttendance. -/
def removeWhitespace (s : String) : String :=
  String.mk (s.data.filter (fun c => !isJsWhitespaceChar c))

/-- The parent telephone normalization in qrCodeService.markAttendance:
when the field is truthy its whitespace is removed, otherwise it defaults
to the empty string. -/
def sanitizePhone (o : Option String) : String :=
  match o with
  | some t => if t == "" then "" else removeWhitespace t
  | none => ""

/-- The request body shape built by qrCodeService.markAttendance. -/
structure MarkRequest where
  qrCodeData : QrPayload
  deviceInfo : String
  scanLocation : String
deriving DecidableEq

/-- Embedding of the body construction in qrCodeService.markAttendance:
the payload with its parent telephone sanitized, the user agent as device
info, and the fixed scan location string. -/
def markAttendanceRequest (qrData : QrPayload) (userAgent : String) : MarkRequest :=
  { qrCodeData := { qrData with parent_telephone := some (sanitizePhone qrData.parent_telephone) }
  , deviceInfo := userAgent
  , scanLocation := "QR Scanner App" }

/-- Result of DigitalQRScanner.handleQRCodeDetected before any response
processing: either the payload is rejected before the remote call, or the
markAttendance request is issued with it. -/
inductive DigitalResult where
  | invalid (msg : String)
  | submitted (req : MarkRequest)
deriving DecidableEq

/-- Embedding of the validation and call in
DigitalQRScanner.handleQRCodeDetected: a payload without a truthy
indexNumber is rejected with an error before qrCodeService.markAttendance
is ever invoked; otherwise the request is issued. -/
def digitalHandleQR (qrData : QrPayload) (userAgent : String) : DigitalResult :=
  if truthy qrData.indexNumber then
    DigitalResult.submitted (markAttendanceRequest qrData userAgent)
  else
    DigitalResult.invalid "Invalid QR code data. Missing student index number."

/-- Structural substring search over character lists, used to model the
string includes test of JavaScript. -/
def containsSub (needle : List Char) : List Char → Bool
  | [] => needle.isEmpty
  | c :: rest => needle.isPrefixOf (c :: rest) || containsSub needle rest

/-- True when the detected text contains the indexNumber query parameter
marker, as tested by includes in DigitalQRScanner.detectQRCode. -/
def includesIndexParam (s : String) : Bool :=
  containsSub "indexNumber=".data s.data

/-- Embedding of the parse cascade in DigitalQRScanner.detectQRCode. The
argument jsonParsed is the JSON.parse result on the text (none when it
throws); url is the result of URL construction and query extraction, as a
pair of the indexNumber and name parameters (none when the URL constructor
throws). JSON is attempted first; on failure, a text containing the
indexNumber parameter is read as a URL query, and any other text is wrapped
as raw data rather than rejected. An error value carries the message the
component surfaces: both a throwing URL constructor and a URL without a
truthy indexNumber parameter are caught by the one catch around the
cascade, which displays the same not-recognized message for either. -/
def detectQRCodeParse (text : String) (jsonParsed : Option QrPayload)
    (url : Option (Option String × Option String)) : Except String QrPayload :=
  match jsonParsed with
  | some p => Except.ok p
  | none =>
    if includesIndexParam text then
      match url with
      | none => Except.error "QR code found but data format is not recognized. Please try a different QR code."
      | some (idx, nm) =>
        if truthy idx then
          Except.ok { indexNumber := idx, name := nm, parent_telephone := none, rawData := none }
        else
          Except.error "QR code found but data format is not recognized. Please try a different QR code."
    else
      Except.ok { indexNumber := none, name := none, parent_telephone := none, rawData := some text }

/-- Embedding of the parse-and-validate path of handleScan in
components/QRScanner.jsx. The argument is the JSON.parse result on the
scanned text: when the parse throws, the catch assigns a raw-data wrapper
to a local that the immediate rethrow discards, and the handler rejects
with the invalid-format message, so no submission results from a non-JSON
text. A parsed null rejects when its fields are read (a thrown TypeError,
carried here as a marker message). A parsed object must have a truthy
indexNumber and name or it is rejected with the missing-information
message; on success a falsy parent telephone is defaulted to the empty
string and the payload goes on to markAttendance. -/
def handleScanParse (jsonParsed : Option JsValue) : Except String QrPayload :=
  match jsonParsed with
  | none => Except.error "Invalid QR code format. Please scan a valid student QR code."
  | some JsValue.nullV => Except.error "TypeError"
  | some (JsValue.obj p) =>
    if !(truthy p.indexNumber) || !(truthy p.name) then
      Except.error "Invalid QR code. Missing required student information."
    else
      Except.ok { p with parent_telephone :=
        (if truthy p.parent_telephone then p.parent_telephone else some "") }

/-- The guard at the top of handleScan in components/QRScanner.jsx: a scan
result starts processing only when a result is present and no submission is
loading. -/
def handleScanStartsSubmission (loading : Bool) (data : Option String) : Bool :=
  data.isSome && !loading

/-- The camera toggle in scanner/QRScanner.jsx: flips the facing mode
string, with no stream handling of its own. -/
def toggleCamera (prevMode : String) : String :=
  if prevMode == "environment" then "user" else "environment"

/-- Error message classification in the catch branch of
handleQRCodeDetected in scanner/QRScanner.jsx, keyed on the HTTP status of
the rejected response, with the server message or a fixed default
otherwise. -/
def classifyAttendanceError (status : Option Nat) (serverMsg : Option String) : String :=
  match status with
  | some 404 => "Student not found in the database"
  | some 409 => "Attendance already marked for this student today"
  | _ => jsOr serverMsg "Failed to mark attendance"

/-- The fixed cooldown in milliseconds passed to setTimeout before the
scanner restarts after a submission error in scanner/QRScanner.jsx. -/
def scannerResetDelayMs : Nat := 3000

/-- State of the camera scanner component in scanner/QRScanner.jsx: the
scanning flag, whether the sampling interval is armed, the loading flag set
while handleQRCodeDetected runs, the number of markAttendance calls in
flight, the error message state, the scheduled restart cooldown if any, and
the camera permission flag. -/
structure ScannerState where
  scanning : Bool
  intervalActive : Bool
  loading : Bool
  inFlight : Nat
  error : Option String
  pendingCooldown : Option Nat
  cameraPermission : Bool
deriving DecidableEq

/-- Embedding of startScanning in scanner/QRScanner.jsx: without camera
permission it only re-checks permission and returns; otherwise it sets the
scanning flag, clears the error, and arms the sampling interval. -/
def startScanning (s : ScannerState) : ScannerState :=
  if s.cameraPermission then
    { s with scanning := true, error := none, intervalActive := true }
  else s

/-- Embedding of the entry of handleQRCodeDetected in
scanner/QRScanner.jsx: the loading flag is set and, when the payload
carries a truthy indexNumber, the markAttendance call goes out; otherwise
the function throws before the call, the catch classifies the error with
the default message, and the restart cooldown is scheduled. -/
def handleQRCodeDetectedStart (s : ScannerState) (p : QrPayload) : ScannerState :=
  if truthy p.indexNumber then
    { s with loading := true, inFlight := s.inFlight + 1 }
  else
    { s with loading := false
           , error := some "Failed to mark attendance"
           , pendingCooldown := some scannerResetDelayMs }

/-- Resolution of a markAttendance call: a fulfilled response, with the
flag recording whether response data was present, or a rejection carrying
the HTTP status and server message when a response exists. -/
inductive SubmitResult where
  | success (hasData : Bool)
  | failure (status : Option Nat) (serverMsg : Option String)
deriving DecidableEq

/-- Events of the scanning flow in scanner/QRScanner.jsx: a sampling tick
firing with the decode and parse results of that frame, the resolution of
the in-flight submission, the firing of the scheduled restart cooldown, and
the user pressing the scan-again control. -/
inductive ScanEvent where
  | tick (code : Option String) (parsed : Option JsValue)
  | submitResolve (res : SubmitResult)
  | cooldownFire
  | scanAgain
deriving DecidableEq

/-- One step of the scanning flow of scanner/QRScanner.jsx. A tick runs
captureAndProcessFrame only while the interval is armed: no symbol leaves
the state untouched, a rejected payload only records the error, and a
validated payload first runs stopScanning, clearing the interval and the
scanning flag, before handleQRCodeDetected starts. A resolution of the
submission clears loading; on a missing response body or a rejection the
classified error is stored and the fixed cooldown is scheduled. The
cooldown firing clears the error and runs startScanning again. The
scan-again control is rendered only when not scanning, not loading and with
no error shown, and runs startScanning. -/
def stepScanner (s : ScannerState) : ScanEvent → ScannerState
  | ScanEvent.tick code parsed =>
    if s.intervalActive then
      match processImageData code parsed with
      | ProcessOutcome.noCode => s
      | ProcessOutcome.rejected msg => { s with error := some msg }
      | ProcessOutcome.found p =>
        handleQRCodeDetectedStart { s with intervalActive := false, scanning := false } p
    else s
  | ScanEvent.submitResolve res =>
    if s.inFlight = 0 then s
    else
      match res with
      | SubmitResult.success true =>
        { s with inFlight := s.inFlight - 1, loading := false }
      | SubmitResult.success false =>
        { s with inFlight := s.inFlight - 1, loading := false
               , error := some "Failed to mark attendance"
               , pendingCooldown := some scannerResetDelayMs }
      | SubmitResult.failure status serverMsg =>
        { s with inFlight := s.inFlight - 1, loading := false
               , error := some (classifyAttendanceError status serverMsg)
               , pendingCooldown := some scannerResetDelayMs }
  | ScanEvent.cooldownFire =>
    match s.pendingCooldown with
    | some _ => startScanning { s with pendingCooldown := none, error := none }
    | none => s
  | ScanEvent.scanAgain =>
    if s.scanning || s.loading || s.error.isSome then s else startScanning s

/-- The component state after mount with camera permission granted, before
the first startScanning effect. -/
def scannerInit : ScannerState :=
  { scanning := false, intervalActive := false, loading := false, inFlight := 0
  , error := none, pendingCooldown := none, cameraPermission := true }

/-- The scanner state reached from the initial state by a list of events. -/
def runScanner (t : List ScanEvent) : ScannerState :=
  t.foldl stepScanner scannerInit

/-- A tick in state s hands a decoded payload to the submitter exactly when
the interval is armed and processImageData validates the frame. -/
def handedToSubmitter (s : ScannerState) (code : Option String) (parsed : Option JsValue) : Bool :=
  s.intervalActive &&
    (match processImageData code parsed with
     | ProcessOutcome.found _ => true
     | _ => false)

/-- Invariant of the scanning flow: the in-flight count matches the loading
flag, the sampling interval is disarmed while loading, and a scheduled
cooldown implies an error is displayed with no submission loading and no
interval armed. -/
def ScannerInv (s : ScannerState) : Prop :=
  s.inFlight = (if s.loading then 1 else 0)
  ∧ (s.loading = true → s.intervalActive = false)
  ∧ (s.pendingCooldown.isSome = true →
      s.error.isSome = true ∧ s.loading = false ∧ s.intervalActive = false)

/-- State of the useQRScanner hook: every media stream ever acquired in the
session as a list of track-liveness flags, the index of the stream held by
streamRef, the stream attached to the video element, whether an animation
frame is scheduled, the scanning flag, and the last scanned data and error. -/
structure CamState where
  streams : List (List Bool)
  streamRef : Option Nat
  videoSrc : Option Nat
  animation : Bool
  scanning : Bool
  scannedData : Option QrPayload
  camError : Option String
deriving DecidableEq

/-- The hook state before any acquisition. -/
def camInit : CamState :=
  { streams := [], streamRef := none, videoSrc := none, animation := false
  , scanning := false, scannedData := none, camError := none }

/-- Embedding of startScanner in the useQRScanner hook: the error and
scanned data are cleared and scanning is set; on getUserMedia success a
fresh stream with the given number of live tracks is acquired, stored in
streamRef, attached to the video element, and frame processing is
scheduled. No prior stream is stopped anywhere in this function. On
failure the error is recorded and scanning cleared. -/
def startScanner (s : CamState) (ok : Bool) (nTracks : Nat) : CamState :=
  let s0 := { s with camError := none, scannedData := none, scanning := true }
  if ok then
    { s0 with streams := s0.streams ++ [List.replicate nTracks true]
            , streamRef := some s0.streams.length
            , videoSrc := some s0.streams.length
            , animation := true }
  else
    { s0 with camError := some "Failed to access camera", scanning := false }

/-- Embedding of stopScanner in the useQRScanner hook: the scheduled
animation frame is cancelled, every track of the stream held by streamRef
is stopped and the reference cleared, the video element srcObject is set to
null, and the scanning flag is cleared. -/
def stopScanner (s : CamState) : CamState :=
  { s with
    animation := false
  , streams :=
      match s.streamRef with
      | some i => s.streams.set i ((s.streams.getD i []).map (fun _ => false))
      | none => s.streams
  , streamRef := none
  , videoSrc := none
  , scanning := false }

/-- A stream is active when it still has a live track. -/
def activeStream (tr : List Bool) : Bool := tr.any id

/-- Number of streams of the session that still have a live track. -/
def activeStreamCount (s : CamState) : Nat :=
  (s.streams.filter activeStream).length

/-- Embedding of processFrame in the useQRScanner hook: it returns without
rescheduling when scanning is off; it skips the frame and reschedules when
the video metadata is not ready; a frame whose decode finds no code
reschedules with the state untouched; a decoded code stores the parsed
data, or wraps the raw text when JSON.parse fails, and stops the scanner.
The returned flag records whether another frame was scheduled. -/
def processFrame (s : CamState) (videoReady : Bool) (code : Option String)
    (parsed : Option JsValue) : CamState × Bool :=
  if !s.scanning then (s, false)
  else if !videoReady then (s, true)
  else
    match code with
    | none => (s, true)
    | some text =>
      match parsed with
      | some (JsValue.obj p) => (stopScanner { s with scannedData := some p }, false)
      | some JsValue.nullV => (stopScanner { s with scannedData := none }, false)
      | none =>
        let raw : QrPayload :=
          { indexNumber := none, name := none, parent_telephone := none
          , rawData := some text }
        (stopScanner { s with scannedData := some raw }, false)

/-- A health-probe response, with its HTTP status and the status field of
its body when present. -/
structure HealthResp where
  status : Nat
  bodyStatus : Option String
deriving DecidableEq

/-- The timeout in milliseconds of the health probe request issued by
checkServerConnectivity. -/
def healthCheckTimeoutMs : Nat := 5000

/-- The timeout in milliseconds of the shared axios instance. -/
def apiTimeoutMs : Nat := 15000

/-- Embedding of checkServerConnectivity in the API service: the probe of
the health endpoint succeeds exactly when a response arrives with HTTP
status 200 and a body whose status field is ok; any thrown error yields
false. -/
def checkServerConnectivity (health : Option HealthResp) : Bool :=
  match health with
  | some r => (r.status == 200) && (r.bodyStatus == some "ok")
  | none => false

/-- A request configuration on the shared axios instance: target url,
authorization header if any, and the markAttendance body when the request
carries one. -/
structure ReqConfig where
  url : String
  authHeader : Option String
  body : Option MarkRequest
deriving DecidableEq

/-- Embedding of the request interceptor of the shared axios instance: the
connectivity probe runs before any request, and on probe failure the
request is rejected with the server-not-responding error before being sent;
otherwise the bearer token from local storage, or from session storage as a
fallback, is attached when present and the request proceeds. -/
def requestInterceptor (health : Option HealthResp) (localTok sessionTok : Option String)
    (cfg : ReqConfig) : Except String ReqConfig :=
  if checkServerConnectivity health then
    let token := if truthy localTok then localTok else sessionTok
    if truthy token then
      Except.ok { cfg with authHeader := some ("Bearer " ++ token.getD "") }
    else
      Except.ok cfg
  else
    Except.error "Server is not responding. Please check if the server is running."

/-- A request dispatched through the shared axios instance: the pair of the
configuration actually sent, if any, and the rejection message otherwise. -/
def apiSend (health : Option HealthResp) (localTok sessionTok : Option String)
    (cfg : ReqConfig) : Option ReqConfig × Option String :=
  match requestInterceptor health localTok sessionTok cfg with
  | Except.ok c => (some c, none)
  | Except.error m => (none, some m)

/-- The full markAttendance call of qrCodeService: the body built by
markAttendanceRequest posted to the mark-attendance endpoint through the
intercepted axios instance. -/
def markAttendanceCall (health : Option HealthResp) (localTok sessionTok : Option String)
    (qrData : QrPayload) (userAgent : String) : Option ReqConfig × Option String :=
  apiSend health localTok sessionTok
    { url := "/students/mark-attendance", authHeader := none
    , body := some (markAttendanceRequest qrData userAgent) }

/-- The student info block of a markAttendance response. -/
structure StudentInfo where
  id : Option String
  indexNumber : Option String
  name : Option String
  parent_telephone : Option String
  student_email : Option String
  address : Option String
  messageStatus : Option String
deriving DecidableEq

/-- The response data of a markAttendance call, with the fields read by the
scanners. -/
structure RespData where
  studentInfo : Option StudentInfo
  student : Option StudentInfo
  attendanceStatus : Option String
  status : Option String
  timestamp : Option String
  messageStatus : Option String
  message : Option String
deriving DecidableEq

/-- Optional chaining into the student info block of a response. -/
def optField (o : Option StudentInfo) (f : StudentInfo → Option String) : Option String :=
  o.bind f

/-- The normalized attendance outcome record built by handleScan in
components/QRScanner.jsx after a successful call. -/
structure ProcessedData where
  id : Option String
  indexNumber : Option String
  name : Option String
  status : String
  timestamp : String
  messageStatus : String
  parent_telephone : Option String
  student_email : String
  address : String
deriving DecidableEq

/-- Embedding of the processedData construction in handleScan of
components/QRScanner.jsx: each field falls back from the response student
info to the scanned payload, the status defaults to entered, the timestamp
is the current ISO time, and the message status defaults to pending. -/
def handleScanProcessed (resp : RespData) (qr : QrPayload) (nowIso : String) : ProcessedData :=
  { id := optField resp.studentInfo (fun si => si.id)
  , indexNumber := jsOrO (optField resp.studentInfo (fun si => si.indexNumber)) qr.indexNumber
  , name := jsOrO (optField resp.studentInfo (fun si => si.name)) qr.name
  , status := jsOr resp.attendanceStatus "entered"
  , timestamp := nowIso
  , messageStatus :=
      jsOr (jsOrO (optField resp.studentInfo (fun si => si.messageStatus)) resp.messageStatus)
        "pending"
  , parent_telephone :=
      jsOrO (optField resp.studentInfo (fun si => si.parent_telephone)) qr.parent_telephone
  , student_email :=
      jsOr (jsOrO (optField resp.studentInfo (fun si => si.student_email))
        (optField resp.student (fun si => si.student_email))) ""
  , address :=
      jsOr (jsOrO (optField resp.studentInfo (fun si => si.address))
        (optField resp.student (fun si => si.address))) "" }

/-- The outcome passed to onScanSuccess in handleQRCodeDetected of
scanner/QRScanner.jsx: the scanned payload spread together with the
response status, defaulting to present, and the response timestamp,
defaulting to the current ISO time. -/
structure ScannerSuccessPayload where
  base : QrPayload
  status : String
  timestamp : String
deriving DecidableEq

/-- Embedding of the onScanSuccess argument in scanner/QRScanner.jsx. -/
def scannerSuccessPayload (resp : RespData) (qr : QrPayload) (nowIso : String) :
    ScannerSuccessPayload :=
  { base := qr
  , status := jsOr resp.status "present"
  , timestamp := jsOr resp.timestamp nowIso }

/-- Getting inside the left part of an appended list. -/
theorem list_getD_append_left {α : Type} (l l' : List α) (i : Nat) (d : α)
    (h : i < l.length) : (l ++ l').getD i d = l.getD i d := by
  induction l generalizing i with
  | nil => cases h
  | cons x xs ih =>
    cases i with
    | zero => rfl
    | succ j =>
      simp only [List.cons_append, List.getD_cons_succ]
      exact ih j (Nat.lt_of_succ_lt_succ h)

/-- Reading back an in-range list update. -/
theorem list_set_getD_self {α : Type} (l : List α) (i : Nat) (a d : α)
    (h : i < l.length) : (l.set i a).getD i d = a := by
  induction l generalizing i with
  | nil => cases h
  | cons x xs ih =>
    cases i with
    | zero => rfl
    | succ j =>
      simp only [List.set_cons_succ, List.getD_cons_succ]
      exact ih j (Nat.lt_of_succ_lt_succ h)

/-- Out-of-range getD yields the default. -/
theorem list_getD_ge {α : Type} (l : List α) (i : Nat) (d : α)
    (h : l.length ≤ i) : l.getD i d = d := by
  induction l generalizing i with
  | nil => cases i <;> rfl
  | cons x xs ih =>
    cases i with
    | zero => cases h
    | succ j =>
      simp only [List.getD_cons_succ]
      exact ih j (Nat.le_of_succ_le_succ h)

/-- An in-range getD is a member of the list. -/
theorem list_getD_mem {α : Type} (l : List α) (i : Nat) (d : α)
    (h : i < l.length) : l.getD i d ∈ l := by
  induction l generalizing i with
  | nil => cases h
  | cons x xs ih =>
    cases i with
    | zero => exact List.mem_cons_self x xs
    | succ j =>
      simp only [List.getD_cons_succ]
      exact List.mem_cons_of_mem x (ih j (Nat.lt_of_succ_lt_succ h))

/-- A nonempty all-live track list is an active stream. -/
theorem activeStream_replicate (n : Nat) (h : 0 < n) :
    activeStream (List.replicate n true) = true := by
  cases n with
  | zero => cases h
  | succ m => simp [activeStream, List.replicate, List.any]

/-- A validated payload returned by processImageData carries a truthy
indexNumber. -/
theorem processImageData_found {code : Option String} {parsed : Option JsValue}
    {p : QrPayload} (h : processImageData code parsed = ProcessOutcome.found p) :
    truthy p.indexNumber = true := by
  cases code with
  | none => cases h
  | some t =>
    cases parsed with
    | none => cases h
    | some v =>
      cases v with
      | nullV => cases h
      | obj q =>
        by_cases hq : truthy q.indexNumber = true
        · simp only [processImageData, hq, if_true] at h
          cases h
          exact hq
        · simp only [processImageData, Bool.not_eq_true] at hq
          simp only [processImageData, hq] at h
          cases h

/-- The initial scanner state satisfies the invariant. -/
theorem scannerInv_init : ScannerInv scannerInit :=
  ⟨rfl, fun h => Bool.noConfusion h, fun h => Bool.noConfusion h⟩

/-- Every step of the scanning flow preserves the invariant. -/
theorem scannerInv_step (s : ScannerState) (e : ScanEvent) (h : ScannerInv s) :
    ScannerInv (stepScanner s e) := by
  obtain ⟨h1, h2, h3⟩ := h
  cases e with
  | tick code parsed =>
    by_cases hI : s.intervalActive = true
    · have hpn : s.pendingCooldown = none := by
        cases hp : s.pendingCooldown with
        | none => rfl
        | some d => exact absurd ((h3 (by simp [hp])).2.2) (by simp [hI])
      have hl : s.loading = false := by
        cases hL : s.loading with
        | false => rfl
        | true => exact absurd (h2 hL) (by simp [hI])
      cases hout : processImageData code parsed with
      | noCode =>
        have hstep : stepScanner s (ScanEvent.tick code parsed) = s := by
          simp [stepScanner, hI, hout]
        rw [hstep]; exact ⟨h1, h2, h3⟩
      | rejected msg =>
        refine ⟨?_, ?_, ?_⟩ <;>
          simp only [stepScanner, hI, hout, if_true]
        · simpa using h1
        · simp [hl]
        · intro hp; simp [hpn] at hp
      | found p =>
        have ht := processImageData_found hout
        have hf : s.inFlight = 0 := by rw [h1, hl]; rfl
        refine ⟨?_, ?_, ?_⟩ <;>
          simp only [stepScanner, hI, hout, if_true, handleQRCodeDetectedStart, ht]
        · simp [hf]
        · simp
        · intro hp; simp [hpn] at hp
    · have hstep : stepScanner s (ScanEvent.tick code parsed) = s := by
        simp [stepScanner, hI]
      rw [hstep]; exact ⟨h1, h2, h3⟩
  | submitResolve res =>
    by_cases hz : s.inFlight = 0
    · have hstep : stepScanner s (ScanEvent.submitResolve res) = s := by
        simp [stepScanner, hz]
      rw [hstep]; exact ⟨h1, h2, h3⟩
    · have hl : s.loading = true := by
        cases hL : s.loading with
        | true => rfl
        | false => rw [h1, hL] at hz; simp at hz
      have hI := h2 hl
      have hf1 : s.inFlight = 1 := by rw [h1, hl]; simp
      have hpn : s.pendingCooldown = none := by
        cases hp : s.pendingCooldown with
        | none => rfl
        | some d => exact absurd ((h3 (by simp [hp])).2.1) (by simp [hl])
      cases res with
      | success hasData =>
        cases hasData with
        | true =>
          refine ⟨?_, ?_, ?_⟩ <;> simp only [stepScanner, if_neg hz]
          · simp [hf1]
          · simp
          · intro hp; simp [hpn] at hp
        | false =>
          refine ⟨?_, ?_, ?_⟩ <;> simp only [stepScanner, if_neg hz]
          · simp [hf1]
          · simp
          · intro _; exact ⟨by simp, by simp, by simpa using hI⟩
      | failure status serverMsg =>
        refine ⟨?_, ?_, ?_⟩ <;> simp only [stepScanner, if_neg hz]
        · simp [hf1]
        · simp
        · intro _; exact ⟨by simp, by simp, by simpa using hI⟩
  | cooldownFire =>
    cases hp : s.pendingCooldown with
    | none =>
      have hstep : stepScanner s ScanEvent.cooldownFire = s := by
        simp [stepScanner, hp]
      rw [hstep]; exact ⟨h1, h2, h3⟩
    | some d =>
      obtain ⟨he, hl, hIn⟩ := h3 (by simp [hp])
      by_cases hperm : s.cameraPermission = true
      · refine ⟨?_, ?_, ?_⟩ <;>
          simp only [stepScanner, hp, startScanning, hperm, if_true]
        · simp [h1, hl]
        · simp [hl]
        · intro hcon; simp at hcon
      · have hpf : s.cameraPermission = false := by simpa using hperm
        refine ⟨?_, ?_, ?_⟩ <;>
          simp only [stepScanner, hp, startScanning, hpf, Bool.false_eq_true, if_false]
        · simpa using h1
        · simpa using h2
        · intro hcon; simp at hcon
  | scanAgain =>
    by_cases hg : (s.scanning || s.loading || s.error.isSome) = true
    · have hstep : stepScanner s ScanEvent.scanAgain = s := by
        simp only [stepScanner, hg, if_true]
      rw [hstep]; exact ⟨h1, h2, h3⟩
    · have hl : s.loading = false := by
        cases hL : s.loading with
        | false => rfl
        | true => exact absurd (by simp [hL] : (s.scanning || s.loading || s.error.isSome) = true) hg
      have herrn : s.error = none := by
        cases he : s.error with
        | none => rfl
        | some m => exact absurd (by simp [he] : (s.scanning || s.loading || s.error.isSome) = true) hg
      have hpn : s.pendingCooldown = none := by
        cases hp : s.pendingCooldown with
        | none => rfl
        | some d => exact absurd ((h3 (by simp [hp])).1) (by simp [herrn])
      by_cases hperm : s.cameraPermission = true
      · refine ⟨?_, ?_, ?_⟩ <;>
          simp only [stepScanner, if_neg hg, startScanning, hperm, if_true]
        · simp [h1, hl]
        · simp [hl]
        · intro hcon; simp [hpn] at hcon
      · have hpf : s.cameraPermission = false := by simpa using hperm
        refine ⟨?_, ?_, ?_⟩ <;>
          simp only [stepScanner, if_neg hg, startScanning, hpf, Bool.false_eq_true, if_false]
        · simpa using h1
        · simpa using h2
        · intro hcon; simp [hpn] at hcon

/-- The invariant holds along any event list from an invariant state. -/
theorem scannerInv_foldl (t : List ScanEvent) :
    ∀ s : ScannerState, ScannerInv s → ScannerInv (t.foldl stepScanner s) := by
  induction t with
  | nil => intro s h; exact h
  | cons e t ih =>
    intro s h
    exact ih (stepScanner s e) (scannerInv_step s e h)

/-- Every reachable state of the scanning flow satisfies the invariant. -/
theorem scannerInv_run (t : List ScanEvent) : ScannerInv (runScanner t) :=
  scannerInv_foldl t scannerInit scannerInv_init

/-- A truthy or-else with a nonempty default is nonempty. -/
theorem jsOr_ne_empty (o : Option String) (d : String) (hd : d ≠ "") :
    jsOr o d ≠ "" := by
  cases o with
  | none => simpa [jsOr, truthy] using hd
  | some s =>
    by_cases hs : s = ""
    · simpa [jsOr, truthy, hs] using hd
    · simp [jsOr, truthy, hs]

/-- C1: Along every event trace of the scanning flow of
scanner/QRScanner.jsx, at most one attendance submission is in flight;
whenever a tick hands a decoded payload to the submitter, the sampling
interval is stopped in the resulting state and still at most one submission
is in flight; and the guard of handleScan in components/QRScanner.jsx
starts no processing of a new result while a submission is loading. -/
theorem at_most_one_submission_in_flight (t : List ScanEvent) :
    (runScanner t).inFlight ≤ 1
    ∧ (∀ code parsed, handedToSubmitter (runScanner t) code parsed = true →
        (stepScanner (runScanner t) (ScanEvent.tick code parsed)).intervalActive = false
        ∧ (stepScanner (runScanner t) (ScanEvent.tick code parsed)).inFlight ≤ 1)
    ∧ (∀ d : Option String, handleScanStartsSubmission true d = false) := by
  obtain ⟨h1, h2, h3⟩ := scannerInv_run t
  refine ⟨?_, ?_, ?_⟩
  · rw [h1]; split <;> simp
  · intro code parsed hh
    cases hout : processImageData code parsed with
    | noCode => exfalso; simp [handedToSubmitter, hout] at hh
    | rejected m => exfalso; simp [handedToSubmitter, hout] at hh
    | found p =>
      have hI : (runScanner t).intervalActive = true := by
        simpa [handedToSubmitter, hout] using hh
      have ht := processImageData_found hout
      have hl : (runScanner t).loading = false := by
        cases hL : (runScanner t).loading with
        | false => rfl
        | true => exact absurd (h2 hL) (by simp [hI])
      have hf : (runScanner t).inFlight = 0 := by rw [h1, hl]; rfl
      constructor <;>
        simp [stepScanner, hI, hout, handleQRCodeDetectedStart, ht, hf]
  · intro d; simp [handleScanStartsSubmission]

/-- Closed instance of the single-submission theorem: after starting the
scanner from the initial state, a tick decoding a valid payload hands it to
the submitter with the interval stopped, and the reached states keep at
most one submission in flight. -/
theorem at_most_one_submission_in_flight_witness :
    (runScanner [ScanEvent.scanAgain]).inFlight ≤ 1
    ∧ (stepScanner (runScanner [ScanEvent.scanAgain])
        (ScanEvent.tick (some "qrtext")
          (some (JsValue.obj
            { indexNumber := some "ST0001", name := none
            , parent_telephone := none, rawData := none })))).intervalActive = false
    ∧ handleScanStartsSubmission true (some "qrtext") = false := by
  have h := at_most_one_submission_in_flight [ScanEvent.scanAgain]
  exact ⟨h.1,
    (h.2.1 (some "qrtext")
      (some (JsValue.obj
        { indexNumber := some "ST0001", name := none
        , parent_telephone := none, rawData := none })) (by decide)).1,
    h.2.2 (some "qrtext")⟩

/-- C2: A successfully decoded payload lacking a truthy indexNumber is
classified by processImageData with the missing-information message, the
tick leaves the session exactly as it was apart from recording that
message, so it stays scanning with the interval armed and no submission
starts, and DigitalQRScanner.handleQRCodeDetected rejects such a payload
before qrCodeService.markAttendance is invoked. -/
theorem missing_index_never_submits (text : String) (p : QrPayload) (ua : String)
    (h : truthy p.indexNumber = false) :
    processImageData (some text) (some (JsValue.obj p))
      = ProcessOutcome.rejected "Invalid QR code data. Missing required information."
    ∧ (∀ s : ScannerState,
        (stepScanner s (ScanEvent.tick (some text) (some (JsValue.obj p)))).scanning = s.scanning
        ∧ (stepScanner s (ScanEvent.tick (some text) (some (JsValue.obj p)))).intervalActive
            = s.intervalActive
        ∧ (stepScanner s (ScanEvent.tick (some text) (some (JsValue.obj p)))).loading = s.loading
        ∧ (stepScanner s (ScanEvent.tick (some text) (some (JsValue.obj p)))).inFlight = s.inFlight)
    ∧ digitalHandleQR p ua
      = DigitalResult.invalid "Invalid QR code data. Missing student index number." := by
  have hout : processImageData (some text) (some (JsValue.obj p))
      = ProcessOutcome.rejected "Invalid QR code data. Missing required information." := by
    simp [processImageData, h]
  refine ⟨hout, ?_, ?_⟩
  · intro s
    by_cases hI : s.intervalActive = true <;>
      simp [stepScanner, hI, hout]
  · simp [digitalHandleQR, h]

/-- Closed instance of the missing-index theorem on a raw-data payload. -/
theorem missing_index_never_submits_witness :
    processImageData (some "hello")
        (some (JsValue.obj { indexNumber := none, name := none
                           , parent_telephone := none, rawData := some "hello" }))
      = ProcessOutcome.rejected "Invalid QR code data. Missing required information."
    ∧ digitalHandleQR { indexNumber := none, name := none
                      , parent_telephone := none, rawData := some "hello" } "agent"
      = DigitalResult.invalid "Invalid QR code data. Missing student index number." := by
  have h := missing_index_never_submits "hello"
    { indexNumber := none, name := none, parent_telephone := none, rawData := some "hello" }
    "agent" (by decide)
  exact ⟨h.1, h.2.2⟩

/-- C4 counterexample: a detected text that is not JSON but carries the
identifier in query-string form, so that JSON.parse throws and parsed is
none, is rejected outright by the camera decoder processImageData with the
invalid-format message instead of being given the claimed bare-identifier
or query-string fallback. -/
theorem camera_decoder_rejects_nonjson :
    processImageData (some "indexNumber=ST123") none
      = ProcessOutcome.rejected "Invalid QR code format. Please scan a valid QR code."
    ∧ includesIndexParam "indexNumber=ST123" = true := by
  exact ⟨rfl, by decide⟩

/-- C4 amended: the JSON-first-then-fallback cascade exists only in the
image-upload decoder DigitalQRScanner.detectQRCode, where a JSON parse
result is used directly, a non-JSON text containing the indexNumber query
parameter is read from the URL query, and any other non-JSON text is
wrapped as raw data rather than rejected; the camera decoders reject every
text whose JSON parse fails outright, processImageData of
scanner/QRScanner.jsx with its invalid-format message and handleScan of
components/QRScanner.jsx with its own invalid-format message, so no
submission results from a non-JSON text there. -/
theorem digital_decoder_fallback (text : String)
    (url : Option (Option String × Option String)) :
    (∀ p, detectQRCodeParse text (some p) url = Except.ok p)
    ∧ (includesIndexParam text = false →
        detectQRCodeParse text none url
          = Except.ok { indexNumber := none, name := none, parent_telephone := none
                      , rawData := some text })
    ∧ (∀ idx nm, includesIndexParam text = true → truthy (some idx) = true →
        detectQRCodeParse text none (some (some idx, nm))
          = Except.ok { indexNumber := some idx, name := nm, parent_telephone := none
                      , rawData := none })
    ∧ (∀ t : String, processImageData (some t) none
        = ProcessOutcome.rejected "Invalid QR code format. Please scan a valid QR code.")
    ∧ handleScanParse none
        = Except.error "Invalid QR code format. Please scan a valid student QR code." := by
  refine ⟨fun p => rfl, ?_, ?_, fun t => rfl, rfl⟩
  · intro hni; simp [detectQRCodeParse, hni]
  · intro idx nm hii hidx; simp [detectQRCodeParse, hii, hidx]

/-- Closed instance of the amended fallback theorem: a plain text is
wrapped as raw data by the image-upload decoder, a query-string text yields
the extracted identifier there, and a failed JSON parse is rejected by
handleScan. -/
theorem digital_decoder_fallback_witness :
    detectQRCodeParse "plain-text" none none
      = Except.ok { indexNumber := none, name := none, parent_telephone := none
                  , rawData := some "plain-text" }
    ∧ detectQRCodeParse "https://e.example/a?indexNumber=ST123" none
        (some (some "ST123", some "Jo"))
      = Except.ok { indexNumber := some "ST123", name := some "Jo"
                  , parent_telephone := none, rawData := none }
    ∧ handleScanParse none
      = Except.error "Invalid QR code format. Please scan a valid student QR code." := by
  have h1 := digital_decoder_fallback "plain-text" none
  have h2 := digital_decoder_fallback "https://e.example/a?indexNumber=ST123" none
  exact ⟨h1.2.1 (by decide), h2.2.2.1 "ST123" (some "Jo") (by decide) (by decide),
    h1.2.2.2.2⟩

/-- C7: A decode cycle whose frame contains no symbol causes no transition
and no error: processImageData returns the silent no-code outcome, the
scanner state is left exactly as it was, still scanning with no submission
issued and the error state untouched, and the hook processFrame leaves its
state unchanged while scheduling the next frame. -/
theorem no_symbol_keeps_scanning :
    (∀ parsed, processImageData none parsed = ProcessOutcome.noCode)
    ∧ (∀ (s : ScannerState) (parsed : Option JsValue),
        stepScanner s (ScanEvent.tick none parsed) = s)
    ∧ (∀ (s : CamState) (videoReady : Bool) (parsed : Option JsValue),
        s.scanning = true → processFrame s videoReady none parsed = (s, true)) := by
  refine ⟨fun parsed => rfl, ?_, ?_⟩
  · intro s parsed
    by_cases hI : s.intervalActive = true <;>
      simp [stepScanner, hI, processImageData]
  · intro s vr parsed hs
    cases vr <;> simp [processFrame, hs]

/-- Closed instance of the no-symbol theorem on the initial states. -/
theorem no_symbol_keeps_scanning_witness :
    processImageData none (some JsValue.nullV) = ProcessOutcome.noCode
    ∧ stepScanner scannerInit (ScanEvent.tick none none) = scannerInit
    ∧ processFrame (startScanner camInit true 2) true none none
        = (startScanner camInit true 2, true) := by
  have h := no_symbol_keeps_scanning
  exact ⟨h.1 (some JsValue.nullV), h.2.1 scannerInit none,
    h.2.2 (startScanner camInit true 2) true none (by decide)⟩

/-- C3 counterexample: starting the scanner twice in a row, which nothing
in startScanner prevents or compensates for, leaves the first stream with
its live track while a second live stream is acquired, so two streams are
active at once and the prior camera handle leaks, refuting the claim that
starting a new stream stops any prior stream first and leaves exactly one
active stream. -/
theorem start_while_active_leaks :
    activeStreamCount (startScanner (startScanner camInit true 1) true 1) = 2
    ∧ (startScanner (startScanner camInit true 1) true 1).streams = [[true], [true]]
    ∧ (startScanner (startScanner camInit true 1) true 1).streamRef = some 1 := by
  refine ⟨by decide, by decide, by decide⟩

/-- C3 amended: startScanner stops no prior stream. When a stream with a
live track is held while startScanner succeeds, the prior stream keeps its
tracks untouched, only the newly acquired stream is referenced, and at
least two streams are active afterwards; toggleCamera of the scanner
component merely flips the requested facing mode and performs no stream
handling of its own. -/
theorem startScanner_leaks_prior_stream (s : CamState) (i n : Nat)
    (_href : s.streamRef = some i) (hi : i < s.streams.length)
    (hact : activeStream (s.streams.getD i []) = true) (hn : 0 < n) :
    (startScanner s true n).streams.getD i [] = s.streams.getD i []
    ∧ (startScanner s true n).streamRef = some s.streams.length
    ∧ 2 ≤ activeStreamCount (startScanner s true n)
    ∧ toggleCamera "environment" = "user"
    ∧ toggleCamera "user" = "environment" := by
  refine ⟨?_, rfl, ?_, rfl, rfl⟩
  · show (s.streams ++ [List.replicate n true]).getD i [] = s.streams.getD i []
    exact list_getD_append_left _ _ i [] hi
  · show 2 ≤ ((s.streams ++ [List.replicate n true]).filter activeStream).length
    rw [List.filter_append, List.length_append]
    have hone : (List.filter activeStream [List.replicate n true]).length = 1 := by
      simp [List.filter_cons, activeStream_replicate n hn]
    have hmem : s.streams.getD i [] ∈ s.streams := list_getD_mem _ i [] hi
    have hmemf : s.streams.getD i [] ∈ s.streams.filter activeStream :=
      List.mem_filter.mpr ⟨hmem, hact⟩
    have hpos : 0 < (s.streams.filter activeStream).length :=
      List.length_pos.mpr (List.ne_nil_of_mem hmemf)
    omega

/-- Closed instance of the amended leak theorem on a session started
twice. -/
theorem startScanner_leaks_prior_stream_witness :
    (startScanner (startScanner camInit true 1) true 1).streams.getD 0 []
      = (startScanner camInit true 1).streams.getD 0 []
    ∧ 2 ≤ activeStreamCount (startScanner (startScanner camInit true 1) true 1) := by
  have h := startScanner_leaks_prior_stream (startScanner camInit true 1) 0 1
    (by decide) (by decide) (by decide) (by decide)
  exact ⟨h.1, h.2.2.1⟩

/-- C6: stopScanner clears the stream reference, the video sink, the
scheduled frame and the scanning flag, stops every track of the stream it
held, is idempotent, and is a strict no-op on a state in which nothing is
active; the success, error and unmount paths of the hook all release
through this one function. -/
theorem stopScanner_releases (s : CamState) :
    (stopScanner s).streamRef = none
    ∧ (stopScanner s).videoSrc = none
    ∧ (stopScanner s).animation = false
    ∧ (stopScanner s).scanning = false
    ∧ (∀ i, s.streamRef = some i → ∀ b ∈ (stopScanner s).streams.getD i [], b = false)
    ∧ stopScanner (stopScanner s) = stopScanner s
    ∧ (s.streamRef = none → s.videoSrc = none → s.animation = false →
        s.scanning = false → stopScanner s = s) := by
  refine ⟨rfl, rfl, rfl, rfl, ?_, ?_, ?_⟩
  · intro i hi b hb
    have hstreams : (stopScanner s).streams
        = s.streams.set i ((s.streams.getD i []).map (fun _ => false)) := by
      simp [stopScanner, hi]
    rw [hstreams] at hb
    by_cases hlen : i < s.streams.length
    · rw [list_set_getD_self _ _ _ _ hlen] at hb
      obtain ⟨a, _, hba⟩ := List.mem_map.mp hb
      exact hba.symm
    · have hge : s.streams.length ≤ i := Nat.le_of_not_lt hlen
      have hd : (s.streams.set i ((s.streams.getD i []).map (fun _ => false))).getD i [] = [] := by
        apply list_getD_ge
        rw [List.length_set]
        exact hge
      rw [hd] at hb
      cases hb
  · rfl
  · intro h1 h2 h3 h4
    cases s
    simp_all [stopScanner]

/-- Closed instance of the release theorem: releasing a freshly started
session stops its tracks, and releasing the idle initial state changes
nothing. -/
theorem stopScanner_releases_witness :
    (stopScanner (startScanner camInit true 2)).streamRef = none
    ∧ (∀ b ∈ (stopScanner (startScanner camInit true 2)).streams.getD 0 [], b = false)
    ∧ stopScanner camInit = camInit := by
  have h1 := stopScanner_releases (startScanner camInit true 2)
  have h2 := stopScanner_releases camInit
  exact ⟨h1.1, h1.2.2.2.2.1 0 (by decide), h2.2.2.2.2.2.2 rfl rfl rfl rfl⟩

/-- C5: A markAttendance rejection with HTTP status 409 is classified as
the already-marked-today message, that message is stored as the error, a
restart cooldown of exactly 3000 milliseconds is scheduled, and when the
cooldown fires the error is cleared and scanning restarts with the
sampling interval armed, with no user action in between. -/
theorem conflict_409_auto_restart (serverMsg : Option String) (s : ScannerState)
    (hf : s.inFlight = 1) (hperm : s.cameraPermission = true) :
    classifyAttendanceError (some 409) serverMsg
      = "Attendance already marked for this student today"
    ∧ scannerResetDelayMs = 3000
    ∧ (stepScanner s (ScanEvent.submitResolve (SubmitResult.failure (some 409) serverMsg))).error
      = some "Attendance already marked for this student today"
    ∧ (stepScanner s
        (ScanEvent.submitResolve (SubmitResult.failure (some 409) serverMsg))).pendingCooldown
      = some scannerResetDelayMs
    ∧ (stepScanner
        (stepScanner s (ScanEvent.submitResolve (SubmitResult.failure (some 409) serverMsg)))
        ScanEvent.cooldownFire).scanning = true
    ∧ (stepScanner
        (stepScanner s (ScanEvent.submitResolve (SubmitResult.failure (some 409) serverMsg)))
        ScanEvent.cooldownFire).intervalActive = true
    ∧ (stepScanner
        (stepScanner s (ScanEvent.submitResolve (SubmitResult.failure (some 409) serverMsg)))
        ScanEvent.cooldownFire).error = none := by
  have hnz : ¬ s.inFlight = 0 := by rw [hf]; simp
  have hs1 : stepScanner s (ScanEvent.submitResolve (SubmitResult.failure (some 409) serverMsg))
      = { s with inFlight := s.inFlight - 1, loading := false
               , error := some (classifyAttendanceError (some 409) serverMsg)
               , pendingCooldown := some scannerResetDelayMs } := by
    simp [stepScanner, hnz]
  refine ⟨rfl, rfl, ?_, ?_, ?_, ?_, ?_⟩ <;>
    rw [hs1] <;>
    simp [stepScanner, startScanning, hperm, classifyAttendanceError]

/-- Closed instance of the conflict-cooldown theorem on a state with one
submission in flight. -/
theorem conflict_409_auto_restart_witness :
    classifyAttendanceError (some 409) none
      = "Attendance already marked for this student today"
    ∧ (stepScanner
        (stepScanner
          { scanning := false, intervalActive := false, loading := true, inFlight := 1
          , error := none, pendingCooldown := none, cameraPermission := true }
          (ScanEvent.submitResolve (SubmitResult.failure (some 409) none)))
        ScanEvent.cooldownFire).scanning = true := by
  have h := conflict_409_auto_restart none
    { scanning := false, intervalActive := false, loading := true, inFlight := 1
    , error := none, pendingCooldown := none, cameraPermission := true }
    (by decide) (by decide)
  exact ⟨h.1, h.2.2.2.2.1⟩

/-- C8: A submission response whose resolved status is entered yields a
normalized outcome whose status field equals entered and whose timestamp is
set to a non-empty string, both for the processedData record built by
handleScan in components/QRScanner.jsx and for the onScanSuccess payload of
scanner/QRScanner.jsx, given that the current ISO timestamp string used as
the default is non-empty. -/
theorem entered_outcome_normalized (resp : RespData) (qr : QrPayload) (nowIso : String)
    (hnow : nowIso ≠ "") :
    (jsOr resp.attendanceStatus "entered" = "entered" →
      (handleScanProcessed resp qr nowIso).status = "entered"
      ∧ (handleScanProcessed resp qr nowIso).timestamp ≠ "")
    ∧ (jsOr resp.status "present" = "entered" →
      (scannerSuccessPayload resp qr nowIso).status = "entered"
      ∧ (scannerSuccessPayload resp qr nowIso).timestamp ≠ "") := by
  constructor
  · intro hst
    exact ⟨hst, hnow⟩
  · intro hst
    exact ⟨hst, jsOr_ne_empty resp.timestamp nowIso hnow⟩

/-- Closed instance of the entered-outcome theorem on a concrete entered
response. -/
theorem entered_outcome_normalized_witness :
    (handleScanProcessed
      { studentInfo := none, student := none, attendanceStatus := some "entered"
      , status := some "entered", timestamp := none, messageStatus := none
      , message := some "Attendance marked successfully" }
      { indexNumber := some "ST0001", name := some "Jo"
      , parent_telephone := none, rawData := none }
      "2026-01-01T08:00:00.000Z").status = "entered"
    ∧ (scannerSuccessPayload
      { studentInfo := none, student := none, attendanceStatus := some "entered"
      , status := some "entered", timestamp := none, messageStatus := none
      , message := some "Attendance marked successfully" }
      { indexNumber := some "ST0001", name := some "Jo"
      , parent_telephone := none, rawData := none }
      "2026-01-01T08:00:00.000Z").timestamp ≠ "" := by
  have h := entered_outcome_normalized
    { studentInfo := none, student := none, attendanceStatus := some "entered"
    , status := some "entered", timestamp := none, messageStatus := none
    , message := some "Attendance marked successfully" }
    { indexNumber := some "ST0001", name := some "Jo"
    , parent_telephone := none, rawData := none }
    "2026-01-01T08:00:00.000Z" (by decide)
  exact ⟨(h.1 (by decide)).1, (h.2 (by decide)).2⟩

/-- C9: The markAttendance request body is exactly the triple of the
normalized payload under the key qrCodeData, the user agent as deviceInfo,
and the fixed scan location string; the payload fields pass through
unchanged except parent telephone, which becomes the empty string when the
field is absent or empty and its whitespace-removed value otherwise, so
that the sent telephone contains no whitespace character. -/
theorem markAttendance_request_shape (qr : QrPayload) (ua : String) :
    markAttendanceRequest qr ua
      = { qrCodeData := { qr with parent_telephone := some (sanitizePhone qr.parent_telephone) }
        , deviceInfo := ua, scanLocation := "QR Scanner App" }
    ∧ (markAttendanceRequest qr ua).qrCodeData.indexNumber = qr.indexNumber
    ∧ (markAttendanceRequest qr ua).qrCodeData.name = qr.name
    ∧ (markAttendanceRequest qr ua).qrCodeData.rawData = qr.rawData
    ∧ (∀ c ∈ (sanitizePhone qr.parent_telephone).data, isJsWhitespaceChar c = false)
    ∧ (qr.parent_telephone = none → sanitizePhone qr.parent_telephone = "")
    ∧ (∀ t : String, ¬ t = "" → sanitizePhone (some t) = removeWhitespace t) := by
  refine ⟨rfl, rfl, rfl, rfl, ?_, ?_, ?_⟩
  · intro c hc
    cases hp : qr.parent_telephone with
    | none =>
      rw [hp] at hc
      exact absurd hc (List.not_mem_nil c)
    | some t =>
      rw [hp] at hc
      by_cases ht : t = ""
      · simp [sanitizePhone, ht] at hc
      · simp only [sanitizePhone, removeWhitespace, beq_iff_eq, ht, if_false] at hc
        have := (List.mem_filter.mp hc).2
        simpa using this
  · intro hnone
    rw [hnone]
    rfl
  · intro t ht
    simp [sanitizePhone, ht]

/-- Closed instance of the request-shape theorem on a payload whose
telephone contains spaces. -/
theorem markAttendance_request_shape_witness :
    (markAttendanceRequest
      { indexNumber := some "ST0001", name := some "Jo"
      , parent_telephone := some "07 12 345", rawData := none } "agent").deviceInfo = "agent"
    ∧ isJsWhitespaceChar '0' = false
    ∧ sanitizePhone (some "07 12 345") = removeWhitespace "07 12 345" := by
  have h := markAttendance_request_shape
    { indexNumber := some "ST0001", name := some "Jo"
    , parent_telephone := some "07 12 345", rawData := none } "agent"
  exact ⟨congrArg MarkRequest.deviceInfo h.1,
    h.2.2.2.2.1 '0' (by decide),
    h.2.2.2.2.2.2 "07 12 345" (by decide)⟩

/-- C10: Every request through the shared axios instance, the attendance
submission included, is gated by the connectivity probe: the probe succeeds
exactly when the health endpoint answers HTTP 200 with body status ok, the
probe request carries its own 5000 millisecond timeout, and when the probe
fails the original request, markAttendance in particular, is rejected with
the server-not-responding message and never sent. -/
theorem connectivity_probe_gates_requests (health : Option HealthResp)
    (localTok sessionTok : Option String) (cfg : ReqConfig)
    (qr : QrPayload) (ua : String) :
    (checkServerConnectivity health = true
      ↔ ∃ r, health = some r ∧ r.status = 200 ∧ r.bodyStatus = some "ok")
    ∧ healthCheckTimeoutMs = 5000
    ∧ (checkServerConnectivity health = false →
        apiSend health localTok sessionTok cfg
          = (none, some "Server is not responding. Please check if the server is running.")
        ∧ markAttendanceCall health localTok sessionTok qr ua
          = (none, some "Server is not responding. Please check if the server is running.")) := by
  refine ⟨?_, rfl, ?_⟩
  · cases health with
    | none => simp [checkServerConnectivity]
    | some r =>
      simp only [checkServerConnectivity, Bool.and_eq_true, beq_iff_eq, Option.some.injEq]
      constructor
      · rintro ⟨hs, hb⟩; exact ⟨r, rfl, hs, hb⟩
      · rintro ⟨r', hr, hs, hb⟩; cases hr; exact ⟨hs, hb⟩
  · intro hfail
    constructor <;>
      simp [apiSend, markAttendanceCall, requestInterceptor, hfail]

/-- Closed instance of the connectivity-gate theorem: with no health
response a plain request is rejected unsent, and with a non-200 health
response the markAttendance call is rejected unsent. -/
theorem connectivity_probe_gates_requests_witness :
    apiSend none none none { url := "/x", authHeader := none, body := none }
      = (none, some "Server is not responding. Please check if the server is running.")
    ∧ markAttendanceCall (some { status := 500, bodyStatus := some "ok" }) none none
        { indexNumber := some "ST0001", name := none
        , parent_telephone := none, rawData := none } "agent"
      = (none, some "Server is not responding. Please check if the server is running.") := by
  have h1 := connectivity_probe_gates_requests none none none
    { url := "/x", authHeader := none, body := none }
    { indexNumber := some "ST0001", name := none, parent_telephone := none, rawData := none }
    "agent"
  have h2 := connectivity_probe_gates_requests (some { status := 500, bodyStatus := some "ok" })
    none none { url := "/x", authHeader := none, body := none }
    { indexNumber := some "ST0001", name := none, parent_telephone := none, rawData := none }
    "agent"
  exact ⟨(h1.2.2 (by decide)).1, (h2.2.2 (by decide)).2⟩
